import Mathlib

/-!
Shallow embedding of `airport.py`, a small aviation-weather utility module:
network fetchers for TAF/short-TAF/METAR text products, a CSV-like
reference-data loader, a spherical-law-of-cosines distance function, a
fixed-offset timestamp parser, a report selector, and a (broken)
validity-interval extractor.

Modelling conventions:
  - Network and file I/O are modelled by passing the I/O outcome in as an
    explicit argument (the network is a function from URL to outcome; the
    file is its list of raw lines as produced by `readline`, trailing
    newline included).
  - Python exception control flow is modelled with `Except PyErr` /
    `Option`; a caught exception is handled locally, an uncaught one
    aborts the function with `Except.error`.
  - Python text/byte strings are modelled as `String`, and the string
    primitives the code uses (`strip`, `split`, `int`, `float`, slicing,
    lexicographic comparison) are embedded as structurally recursive
    functions on the character list, following Python's semantics (the
    inputs at stake are ASCII, where byte-wise and character-wise
    processing agree).
  - Python floats are idealized as exact numbers: exact decimals where
    only parsing is at stake, `Real` for the trigonometric distance
    formula.
-/

/-- Python runtime errors raised by the embedded code. -/
inductive PyErr where
  | valueError
  | typeError
  | nameError
  | indexError
  deriving DecidableEq, Repr

/-- Outcome of `urllib.request.urlopen` followed by reading the handle:
either the resource content, or an I/O failure (`IOError`). -/
inductive NetResult (α : Type) where
  | ok (content : α)
  | ioError
  deriving DecidableEq, Repr

/-- Result of `get_taf` / `get_shorttaf`: in Python the same variable holds
either the list of lines read from the resource, or the literal string
`"error"`; the two cases are modelled as the two constructors. -/
inductive FetchResult where
  | err
  | ok (lines : List String)
  deriving DecidableEq, Repr

/-- URL built by `get_taf`. -/
def taf_url (icao : String) : String :=
  "ftp://tgftp.nws.noaa.gov/data/forecasts/taf/stations/" ++ icao ++ ".TXT"

/-- URL built by `get_shorttaf`. -/
def shorttaf_url (icao : String) : String :=
  "ftp://tgftp.nws.noaa.gov/data/forecasts/shorttaf/stations/" ++ icao ++ ".TXT"

/-- URL built by `get_metar`. -/
def metar_url (icao : String) : String :=
  "ftp://tgftp.nws.noaa.gov/data/observations/metar/stations/" ++ icao ++ ".TXT"

/-- The function `get_taf`: open the TAF URL and read its lines; on
`IOError` print a message and return the string `'error'` (`FetchResult.err`). -/
def get_taf (net : String → NetResult (List String)) (icao : String) : FetchResult :=
  match net (taf_url icao) with
  | NetResult.ok lines => FetchResult.ok lines
  | NetResult.ioError => FetchResult.err

/-- The function `get_shorttaf`, identical to `get_taf` but for the
short-TAF path. -/
def get_shorttaf (net : String → NetResult (List String)) (icao : String) : FetchResult :=
  match net (shorttaf_url icao) with
  | NetResult.ok lines => FetchResult.ok lines
  | NetResult.ioError => FetchResult.err

/-- The function `get_metar`: reads the whole resource as one blob
(`fileHandle.read()`); on `IOError` returns the string `'error'`. In
Python both the blob and the sentinel are plain strings. -/
def get_metar (net : String → NetResult String) (icao : String) : String :=
  match net (metar_url icao) with
  | NetResult.ok blob => blob
  | NetResult.ioError => "error"

/-- Lexicographic strict comparison on character lists, modelling Python's
`<` on byte strings (the lines at stake are ASCII, where the two agree). -/
def bytesLt : List Char → List Char → Bool
  | [], [] => false
  | [], _ :: _ => true
  | _ :: _, [] => false
  | a :: as, b :: bs => if a < b then true else if b < a then false else bytesLt as bs

/-- Python's `a < b` on the byte-string lines. -/
def pyStrLt (a b : String) : Bool := bytesLt a.data b.data

/-- Selection logic of `get_latest_report` after the two fetches: the
`if taf == 'error' / elif shorttaf == 'error' / elif taf[0] > shorttaf[0]`
chain. `taf[0]` on an empty line list raises `IndexError`, modelled by
`none`; otherwise the chosen full line sequence is returned unmodified. -/
def select_report (taf shorttaf : FetchResult) : Option FetchResult :=
  match taf, shorttaf with
  | FetchResult.err, s => some s
  | t, FetchResult.err => some t
  | FetchResult.ok tl, FetchResult.ok sl =>
    match tl.head?, sl.head? with
    | some t0, some s0 =>
      some (if pyStrLt s0 t0 then FetchResult.ok tl else FetchResult.ok sl)
    | _, _ => none

/-- The function `get_latest_report`: fetch the standard and the short
forecast, then select between them. -/
def get_latest_report (net : String → NetResult (List String)) (icao : String) :
    Option FetchResult :=
  select_report (get_taf net icao) (get_shorttaf net icao)

/-- ASCII whitespace recognized by Python's `str.strip()`. -/
def isPySpace (c : Char) : Bool :=
  c = ' ' || c = '\t' || c = '\n' || c = '\r' || c = '\x0b' || c = '\x0c'

/-- Python's `str.strip()`: drop leading and trailing whitespace. -/
def pyStrip (cs : List Char) : List Char :=
  ((cs.dropWhile isPySpace).reverse.dropWhile isPySpace).reverse

/-- Python's `str.split(sep)` for a one-character separator: split at every
occurrence, keeping empty fields, so the result always has one more field
than there are separators. -/
def pySplit (sep : Char) : List Char → List (List Char)
  | [] => [[]]
  | c :: cs =>
    if c = sep then [] :: pySplit sep cs
    else
      match pySplit sep cs with
      | f :: rest => (c :: f) :: rest
      | [] => [[c]]

/-- Decimal digit test (ASCII). -/
def pyIsDigit (c : Char) : Bool := '0' ≤ c && c ≤ '9'

/-- Numeric value of a list of decimal digit characters. -/
def digitsVal (cs : List Char) : Nat :=
  cs.foldl (fun acc c => 10 * acc + (c.toNat - '0'.toNat)) 0

/-- Value of a parsed decimal literal, idealized as the exact number
`(-1)^negSign * mantissa / 10^scale`. -/
structure DecimalVal where
  negSign : Bool
  mantissa : Nat
  scale : Nat
  deriving DecidableEq, Repr

/-- The exact rational value of a parsed decimal literal. -/
def DecimalVal.toRat (v : DecimalVal) : Rat :=
  (if v.negSign then -(v.mantissa : Rat) else (v.mantissa : Rat)) / (10 : Rat) ^ v.scale

/-- A Python value stored in the record list of the airport dictionary:
either a text string or a parsed float. -/
inductive PyVal where
  | str (s : String)
  | num (v : DecimalVal)
  deriving DecidableEq, Repr

/-- The airport dictionary: insertion-ordered mapping from ICAO identifier
to record list, as Python's `dict` preserves insertion order. -/
abbrev AirportMap := List (String × List PyVal)

/-- Parse an unsigned decimal literal: digits, optionally followed by a dot
and further digits, with at least one digit overall. -/
def pyFloatCore (cs : List Char) : Option DecimalVal :=
  let intPart := cs.takeWhile pyIsDigit
  let rest := cs.dropWhile pyIsDigit
  match rest with
  | [] => if intPart.isEmpty then none else some ⟨false, digitsVal intPart, 0⟩
  | c :: frac =>
    if c = '.' ∧ frac.all pyIsDigit ∧ ¬(intPart.isEmpty ∧ frac.isEmpty) then
      some ⟨false, digitsVal intPart * 10 ^ frac.length + digitsVal frac, frac.length⟩
    else none

/-- Python's `float()` builtin as used on the latitude/longitude fields:
surrounding whitespace is stripped, an optional sign precedes a plain
decimal literal, and the parsed value is idealized as an exact decimal.
(Exponent, infinity/nan and underscore forms never occur in the data at
stake and are out of scope.) `none` models the `ValueError` it raises. -/
def pyFloat (s : String) : Option DecimalVal :=
  match pyStrip s.data with
  | '+' :: cs => pyFloatCore cs
  | '-' :: cs => (pyFloatCore cs).map (fun v => ⟨true, v.mantissa, v.scale⟩)
  | cs => pyFloatCore cs

/-- Header-skipping loop of `read_airport_data`:
`line = readline(); while line != '\n': line = readline()`.
The file is modelled as its list of raw lines. Once the reader is past the
end of input, `readline` returns `""` forever, which never equals `"\n"`,
so on a source with no blank line the loop never exits; that divergence is
modelled by `none`. -/
def skipHeader : List String → Option (List String)
  | [] => none
  | l :: ls => if l = "\n" then some ls else skipHeader ls

/-- The per-line `line.strip().split(",")` of the loader. -/
def splitFields (line : String) : List String :=
  (pySplit ',' (pyStrip line.data)).map List.asString

/-- Python's `icao in airport_data` key-membership test. -/
def containsKey (m : AirportMap) (k : String) : Bool :=
  m.any (fun p => p.1 == k)

/-- Body of the loader's `for` loop for one line. The ten-way tuple
unpacking of `line.strip().split(",")` raises `ValueError` unless there are
exactly ten fields; `data = {icao: [float(lat), float(lon)]}` then raises
`ValueError` if either coordinate does not parse; both are caught by the
`except ValueError` and skip the line. A fresh identifier is inserted with
all nine remaining fields as the verbatim strings; a repeated identifier
reaches `airport_data[icao].append(name, lat, ...)`, and `list.append`
called with nine positional arguments raises `TypeError`, which the
`except ValueError` clause does not catch, so it aborts the whole call. -/
def loadLine (m : AirportMap) (line : String) : Except PyErr AirportMap :=
  let fs := splitFields line
  if fs.length = 10 then
    let icao := fs.getD 0 ""
    let name := fs.getD 1 ""
    let lat := fs.getD 2 ""
    let lon := fs.getD 3 ""
    let dest_ceil := fs.getD 4 ""
    let dest_vis := fs.getD 5 ""
    let noAlt_ceil := fs.getD 6 ""
    let noAlt_vis := fs.getD 7 ""
    let alt_ceil := fs.getD 8 ""
    let alt_vis := fs.getD 9 ""
    match pyFloat lat, pyFloat lon with
    | some _, some _ =>
      if containsKey m icao then
        Except.error PyErr.typeError
      else
        Except.ok (m ++ [(icao,
          [PyVal.str name, PyVal.str lat, PyVal.str lon, PyVal.str dest_ceil,
           PyVal.str dest_vis, PyVal.str noAlt_ceil, PyVal.str noAlt_vis,
           PyVal.str alt_ceil, PyVal.str alt_vis])])
    | _, _ => Except.ok m
  else
    Except.ok m

/-- The loader's `for line in airport_file` accumulation loop. -/
def loadLines (m : AirportMap) : List String → Except PyErr AirportMap
  | [] => Except.ok m
  | l :: ls =>
    match loadLine m l with
    | Except.ok m2 => loadLines m2 ls
    | Except.error e => Except.error e

/-- The function `read_airport_data`, over the file modelled as its list of
raw lines (trailing newlines included, as `readline` produces them).
`none` models the divergence of the header loop on a source with no blank
line; otherwise the remaining lines are folded into the dictionary. -/
def read_airport_data (lines : List String) : Option (Except PyErr AirportMap) :=
  (skipHeader lines).map (fun rest => loadLines ([] : AirportMap) rest)

/-- The argument that `compute_distance_latlon` passes to `math.acos`,
with the four degree-to-radian conversions inlined. -/
noncomputable def acosArgument (lat1 lon1 lat2 lon2 : Real) : Real :=
  Real.sin (lat1 * Real.pi / 180) * Real.sin (lat2 * Real.pi / 180) +
    Real.cos (lat1 * Real.pi / 180) * Real.cos (lat2 * Real.pi / 180) *
      Real.cos (lon1 * Real.pi / 180 - lon2 * Real.pi / 180)

/-- The function `compute_distance_latlon`: spherical law of cosines, Earth
radius 6371 km, kilometres converted to nautical miles by 0.5399568. The
`acos` argument is passed unclamped. Floating-point numbers are idealized
as exact reals. -/
noncomputable def compute_distance_latlon (lat1 lon1 lat2 lon2 : Real) : Real :=
  Real.arccos (acosArgument lat1 lon1 lat2 lon2) * 6371 * 0.5399568

/-- Result of `datetime.datetime(year, month, day, hour, minute)`. -/
structure PyDateTime where
  year : Nat
  month : Nat
  day : Nat
  hour : Nat
  minute : Nat
  deriving DecidableEq, Repr

/-- Gregorian leap-year rule, as `datetime` uses for day validation. -/
def isLeapYear (y : Nat) : Bool :=
  (y % 4 == 0 && y % 100 != 0) || y % 400 == 0

/-- Number of days of a month, as `datetime` uses for day validation. -/
def daysInMonth (y m : Nat) : Nat :=
  if m = 2 then (if isLeapYear y then 29 else 28)
  else if m = 4 ∨ m = 6 ∨ m = 9 ∨ m = 11 then 30
  else 31

/-- The `datetime.datetime` constructor with its range validation; `none`
models the `ValueError` it raises on an out-of-range component. -/
def mkDatetime (y mo d h mi : Nat) : Option PyDateTime :=
  if 1 ≤ y ∧ y ≤ 9999 ∧ 1 ≤ mo ∧ mo ≤ 12 ∧ 1 ≤ d ∧ d ≤ daysInMonth y mo ∧
      h ≤ 23 ∧ mi ≤ 59 then
    some ⟨y, mo, d, h, mi⟩
  else none

/-- Python's slice `s[a:b]` for `0 ≤ a ≤ b`: out-of-range bounds truncate
silently, never raising. -/
def pySlice (s : String) (a b : Nat) : String :=
  ((s.data.drop a).take (b - a)).asString

/-- Python's `int()` builtin as used on the digit-only timestamp slices:
parse a nonempty string of decimal digits; `none` models the `ValueError`
it raises otherwise (signed or whitespace-padded forms never occur at the
fixed offsets in scope). -/
def pyInt (s : String) : Option Nat :=
  if s.data ≠ [] ∧ s.data.all pyIsDigit then some (digitsVal s.data) else none

/-- The function `get_datetime`: integer fields are read from the fixed
slices `[:4]`, `[5:7]`, `[8:10]`, `[11:13]`, `[14:16]` and passed to the
`datetime.datetime` constructor. -/
def get_datetime (line : String) : Option PyDateTime := do
  let year ← pyInt (pySlice line 0 4)
  let month ← pyInt (pySlice line 5 7)
  let day ← pyInt (pySlice line 8 10)
  let hour ← pyInt (pySlice line 11 13)
  let minute ← pyInt (pySlice line 14 16)
  mkDatetime year month day hour minute

/-- The function `search_string` from the source. Its loop
`for i in string: if i == '/': place = i` leaves `i` bound to the LAST
character of the string (a one-character `str`), and `place` is assigned
but never read again. The final expression `string[i+11:i+20]` then
evaluates `i + 11`, adding an `int` to that `str`, so every call on a
nonempty string raises `TypeError`; on the empty string the loop body
never runs, `i` is never bound, and the final line raises `NameError`. -/
def search_string (string : String) : Except PyErr String :=
  match string.data.getLast? with
  | none => Except.error PyErr.nameError
  | some _ => Except.error PyErr.typeError

/-- The docstring example record line of the reference-data file. -/
def ebcvLine : String := "EBCV,Chievres,50.583333,3.833333,200,400,600,2000,600,2000\n"

/-- The record the loader stores for `ebcvLine`: all nine remaining fields
verbatim as strings. -/
def ebcvRecord : List PyVal :=
  [PyVal.str "Chievres", PyVal.str "50.583333", PyVal.str "3.833333",
   PyVal.str "200", PyVal.str "400", PyVal.str "600", PyVal.str "2000",
   PyVal.str "600", PyVal.str "2000"]

/-- The spec's end-to-end loader example: one header line, a blank line,
one record line. -/
def exampleInput : List String := ["HEADER LINE\n", "\n", ebcvLine]

/-- A loader input whose record line appears twice. -/
def dupInput : List String := ["HEADER LINE\n", "\n", ebcvLine, ebcvLine]

/-- A record line with only three comma-separated fields. -/
def shortLine : String := "EBCV,Chievres,50.583333\n"

/-- Strict lexicographic comparison is asymmetric. -/
theorem bytesLt_asymm : ∀ a b : List Char, bytesLt a b = true → bytesLt b a = false := by
  intro a
  induction a with
  | nil =>
    intro b hb
    cases b with
    | nil => simp [bytesLt] at hb
    | cons c cs => simp [bytesLt]
  | cons x xs ih =>
    intro b hb
    cases b with
    | nil => simp [bytesLt] at hb
    | cons y ys =>
      by_cases hxy : x < y
      · have hyx : ¬ y < x := lt_asymm hxy
        simp [bytesLt, hxy, hyx]
      · by_cases hyx : y < x
        · simp [bytesLt, hxy, hyx] at hb
        · simp [bytesLt, hxy, hyx] at hb ⊢
          exact ih ys hb

/-- Asymmetry transported to strings. -/
theorem pyStrLt_asymm (a b : String) (h : pyStrLt a b = true) : pyStrLt b a = false :=
  bytesLt_asymm a.data b.data h

/-- C1: for every ICAO identifier, `get_latest_report` fetches the standard
and short forecast variants and returns: the short variant if the standard
fetch returned the sentinel (even if the short also failed); otherwise the
standard variant if the short fetch returned the sentinel; otherwise,
whichever variant's first line is lexicographically greater, as the full
unmodified line sequence. -/
theorem get_latest_report_selects_later (net : String → NetResult (List String))
    (icao : String) (taf shorttaf : FetchResult)
    (htaf : get_taf net icao = taf) (hshort : get_shorttaf net icao = shorttaf) :
    (taf = FetchResult.err → get_latest_report net icao = some shorttaf) ∧
    (taf ≠ FetchResult.err → shorttaf = FetchResult.err →
      get_latest_report net icao = some taf) ∧
    (∀ t0 tl s0 sl, taf = FetchResult.ok (t0 :: tl) → shorttaf = FetchResult.ok (s0 :: sl) →
      (pyStrLt s0 t0 = true → get_latest_report net icao = some taf) ∧
      (pyStrLt t0 s0 = true → get_latest_report net icao = some shorttaf)) := by
  subst htaf hshort
  unfold get_latest_report
  refine ⟨?_, ?_, ?_⟩
  · intro h
    rw [h]
    cases get_shorttaf net icao <;> rfl
  · intro h1 h2
    rw [h2]
    cases h : get_taf net icao with
    | err => exact absurd h (h ▸ h1)
    | ok tl => rfl
  · intro t0 tl s0 sl ht hs
    rw [ht, hs]
    constructor
    · intro hlt
      simp [select_report, hlt]
    · intro hlt
      have hne : pyStrLt s0 t0 = false := pyStrLt_asymm t0 s0 hlt
      simp [select_report, hne]

/-- C1 witness: with the spec's example timestamps, the standard variant
(later first line) is returned. -/
theorem get_latest_report_selects_later_witness :
    get_latest_report
      (fun url => if url = taf_url "EBCV" then NetResult.ok ["2012/11/19 13:51\n"]
                  else NetResult.ok ["2012/11/18 19:45\n"]) "EBCV"
      = some (FetchResult.ok ["2012/11/19 13:51\n"]) := by
  have h := get_latest_report_selects_later
      (fun url => if url = taf_url "EBCV" then NetResult.ok ["2012/11/19 13:51\n"]
                  else NetResult.ok ["2012/11/18 19:45\n"]) "EBCV"
      (FetchResult.ok ["2012/11/19 13:51\n"]) (FetchResult.ok ["2012/11/18 19:45\n"])
      (by decide) (by decide)
  exact (h.2.2 "2012/11/19 13:51\n" [] "2012/11/18 19:45\n" [] rfl rfl).1 (by decide)

/-- C8: for every ICAO identifier and product kind, an I/O failure while
opening or reading the resource makes the fetcher return the error
sentinel (and a success returns the content unchanged), so the sentinel is
the only failure signal the caller sees. -/
theorem fetch_error_sentinel (netL : String → NetResult (List String))
    (netS : String → NetResult String) (icao : String) :
    (netL (taf_url icao) = NetResult.ioError → get_taf netL icao = FetchResult.err) ∧
    (∀ lines, netL (taf_url icao) = NetResult.ok lines →
      get_taf netL icao = FetchResult.ok lines) ∧
    (netL (shorttaf_url icao) = NetResult.ioError →
      get_shorttaf netL icao = FetchResult.err) ∧
    (∀ lines, netL (shorttaf_url icao) = NetResult.ok lines →
      get_shorttaf netL icao = FetchResult.ok lines) ∧
    (netS (metar_url icao) = NetResult.ioError → get_metar netS icao = "error") ∧
    (∀ blob, netS (metar_url icao) = NetResult.ok blob → get_metar netS icao = blob) := by
  refine ⟨?_, ?_, ?_, ?_, ?_, ?_⟩ <;>
    first
      | (intro h; simp [get_taf, get_shorttaf, get_metar, h])
      | (intro x h; simp [get_taf, get_shorttaf, get_metar, h])

/-- C8 witness: a network that always fails makes all three fetchers
return the sentinel. -/
theorem fetch_error_sentinel_witness :
    get_taf (fun _ => NetResult.ioError) "EBCV" = FetchResult.err ∧
    get_shorttaf (fun _ => NetResult.ioError) "EBCV" = FetchResult.err ∧
    get_metar (fun _ => NetResult.ioError) "EBCV" = "error" := by
  have h := fetch_error_sentinel (fun _ => NetResult.ioError)
      (fun _ => NetResult.ioError) "EBCV"
  exact ⟨h.1 rfl, h.2.2.1 rfl, h.2.2.2.2.1 rfl⟩

/-- The header loop makes progress exactly when some line is blank. -/
theorem skipHeader_isSome (ls : List String) :
    (skipHeader ls).isSome = true ↔ "\n" ∈ ls := by
  induction ls with
  | nil => simp [skipHeader]
  | cons l ls ih =>
    by_cases hl : l = "\n"
    · subst hl
      simp [skipHeader]
    · simp [skipHeader, hl, ih, eq_comm]

/-- Skipping a header of non-blank lines consumes exactly through the first
blank line. -/
theorem skipHeader_append (hdr rest : List String) (hh : ∀ l ∈ hdr, l ≠ "\n") :
    skipHeader (hdr ++ "\n" :: rest) = some rest := by
  induction hdr with
  | nil => simp [skipHeader]
  | cons l hs ih =>
    have hl : l ≠ "\n" := hh l (List.mem_cons_self l hs)
    rw [List.cons_append]
    simp only [skipHeader, if_neg hl]
    exact ih (fun x hx => hh x (List.mem_cons_of_mem l hx))

/-- C10: `read_airport_data` terminates if and only if its input contains
at least one blank line. The header loop compares each line to the newline
string; past end-of-input `readline` returns the empty string, which never
equals it, so with no blank line the loop never exits. -/
theorem read_airport_data_terminates_iff (lines : List String) :
    (read_airport_data lines).isSome = true ↔ "\n" ∈ lines := by
  have h := skipHeader_isSome lines
  unfold read_airport_data
  cases hs : skipHeader lines with
  | none =>
    rw [hs] at h
    simpa using h
  | some rest =>
    rw [hs] at h
    simpa using h

/-- Key membership test, phrased on the key list. -/
theorem containsKey_eq_false_iff (m : AirportMap) (k : String) :
    containsKey m k = false ↔ k ∉ m.map Prod.fst := by
  rw [Bool.eq_false_iff]
  simp [containsKey, List.any_eq_true, List.mem_map]

/-- A line that does not split into exactly ten fields is skipped. -/
theorem loadLine_of_length_ne (m : AirportMap) (line : String)
    (h : (splitFields line).length ≠ 10) : loadLine m line = Except.ok m := by
  simp only [loadLine]
  rw [if_neg h]

/-- Action of `loadLine` on a line with exactly ten fields, by cases on the
coordinate parses and key membership. -/
theorem loadLine_of_split (m : AirportMap)
    (line icao name lat lon dc dv nc nv ac av : String)
    (hs : splitFields line = [icao, name, lat, lon, dc, dv, nc, nv, ac, av]) :
    loadLine m line =
      match pyFloat lat, pyFloat lon with
      | some _, some _ =>
        if containsKey m icao then Except.error PyErr.typeError
        else Except.ok (m ++ [(icao,
          [PyVal.str name, PyVal.str lat, PyVal.str lon, PyVal.str dc,
           PyVal.str dv, PyVal.str nc, PyVal.str nv,
           PyVal.str ac, PyVal.str av])])
      | _, _ => Except.ok m := by
  simp only [loadLine, hs]
  rfl

/-- C2 counterexample: on the spec's end-to-end example the single stored
record keeps latitude verbatim as the text "50.583333" at position 1; no
parsed float value is stored there. -/
theorem read_airport_data_stores_text_cex :
    read_airport_data exampleInput = some (Except.ok [("EBCV", ebcvRecord)]) ∧
    ebcvRecord.get? 1 = some (PyVal.str "50.583333") ∧
    ¬ ∃ v : DecimalVal, ebcvRecord.get? 1 = some (PyVal.num v) := by
  refine ⟨rfl, rfl, ?_⟩
  rintro ⟨v, hv⟩
  simp [ebcvRecord] at hv

/-- C2 (amended): for a header of non-blank lines, one blank line, then
one well-formed ten-field record whose latitude and longitude parse as
floats, the loader returns a mapping with exactly one entry, keyed by the
record's identifier, holding the other nine fields all preserved verbatim
as strings (latitude and longitude are only validated, not stored parsed). -/
theorem read_airport_data_single_record (hdr : List String)
    (line icao name lat lon dc dv nc nv ac av : String)
    (hhdr : ∀ l ∈ hdr, l ≠ "\n")
    (hs : splitFields line = [icao, name, lat, lon, dc, dv, nc, nv, ac, av])
    (hlat : (pyFloat lat).isSome = true) (hlon : (pyFloat lon).isSome = true) :
    read_airport_data (hdr ++ "\n" :: [line]) =
      some (Except.ok [(icao,
        [PyVal.str name, PyVal.str lat, PyVal.str lon, PyVal.str dc,
         PyVal.str dv, PyVal.str nc, PyVal.str nv,
         PyVal.str ac, PyVal.str av])]) := by
  unfold read_airport_data
  rw [skipHeader_append hdr [line] hhdr]
  obtain ⟨vlat, hvlat⟩ := Option.isSome_iff_exists.mp hlat
  obtain ⟨vlon, hvlon⟩ := Option.isSome_iff_exists.mp hlon
  have h1 := loadLine_of_split ([] : AirportMap) line icao name lat lon dc dv nc nv ac av hs
  rw [hvlat, hvlon] at h1
  simp only [containsKey, List.any_nil, Bool.false_eq_true, if_false, List.nil_append] at h1
  simp [loadLines, h1]

/-- C2 witness: a two-line header followed by the blank line and the EBCV
record yields the singleton mapping with all fields stored verbatim. -/
theorem read_airport_data_single_record_witness :
    read_airport_data (["Airport data file\n", "second header line\n"] ++ "\n" :: [ebcvLine]) =
      some (Except.ok [("EBCV",
        [PyVal.str "Chievres", PyVal.str "50.583333", PyVal.str "3.833333",
         PyVal.str "200", PyVal.str "400", PyVal.str "600", PyVal.str "2000",
         PyVal.str "600", PyVal.str "2000"])]) := by
  exact read_airport_data_single_record ["Airport data file\n", "second header line\n"]
    ebcvLine "EBCV" "Chievres" "50.583333" "3.833333" "200" "400" "600" "2000" "600" "2000"
    (by decide) (by decide) (by decide) (by decide)

/-- C3: a line after the header that does not split into exactly ten
comma-separated fields, or whose latitude/longitude fields fail to parse
as numbers, is silently skipped: the mapping is unchanged, no error is
raised, and processing continues with the subsequent lines. -/
theorem malformed_line_skipped (m : AirportMap) (line : String) (rest : List String)
    (h : (splitFields line).length ≠ 10 ∨
      ∃ icao name lat lon dc dv nc nv ac av,
        splitFields line = [icao, name, lat, lon, dc, dv, nc, nv, ac, av] ∧
        (pyFloat lat = none ∨ pyFloat lon = none)) :
    loadLine m line = Except.ok m ∧ loadLines m (line :: rest) = loadLines m rest := by
  have hskip : loadLine m line = Except.ok m := by
    rcases h with hlen | ⟨icao, name, lat, lon, dc, dv, nc, nv, ac, av, hs, hbad⟩
    · exact loadLine_of_length_ne m line hlen
    · have h1 := loadLine_of_split m line icao name lat lon dc dv nc nv ac av hs
      rcases hbad with hb | hb
      · rw [hb] at h1
        exact h1.trans (by cases pyFloat lon <;> rfl)
      · rw [hb] at h1
        exact h1.trans (by cases pyFloat lat <;> rfl)
  exact ⟨hskip, by simp [loadLines, hskip]⟩

/-- C3 witness: a three-field record is skipped and the following valid
record is still loaded. -/
theorem malformed_line_skipped_witness :
    loadLine ([] : AirportMap) shortLine = Except.ok [] ∧
    loadLines ([] : AirportMap) [shortLine, ebcvLine] = loadLines ([] : AirportMap) [ebcvLine] := by
  exact malformed_line_skipped ([] : AirportMap) shortLine [ebcvLine] (Or.inl (by decide))

/-- C4 counterexample: on an input whose well-formed EBCV record appears
twice, the loader does not return a mapping at all: the duplicate line
raises an uncaught TypeError. -/
theorem duplicate_line_raises_cex :
    read_airport_data dupInput = some (Except.error PyErr.typeError) ∧
    ¬ ∃ m : AirportMap, read_airport_data dupInput = some (Except.ok m) := by
  refine ⟨rfl, ?_⟩
  rintro ⟨m, hm⟩
  have h1 : read_airport_data dupInput = some (Except.error PyErr.typeError) := rfl
  rw [h1] at hm
  simp at hm

/-- Inserting one well-formed line preserves distinctness of the keys. -/
theorem loadLine_nodup (m m2 : AirportMap) (line : String)
    (h : loadLine m line = Except.ok m2) (hm : (m.map Prod.fst).Nodup) :
    (m2.map Prod.fst).Nodup := by
  by_cases hlen : (splitFields line).length = 10
  · simp only [loadLine, if_pos hlen] at h
    cases hA : pyFloat ((splitFields line).getD 2 "") <;>
      cases hB : pyFloat ((splitFields line).getD 3 "") <;> rw [hA, hB] at h
    · obtain rfl : m = m2 := Except.ok.inj h
      exact hm
    · obtain rfl : m = m2 := Except.ok.inj h
      exact hm
    · obtain rfl : m = m2 := Except.ok.inj h
      exact hm
    · by_cases hc : containsKey m ((splitFields line).getD 0 "")
      · rw [if_pos hc] at h
        exact absurd h (by simp)
      · rw [if_neg hc] at h
        obtain rfl := (Except.ok.inj h).symm
        rw [List.map_append]
        rw [List.nodup_append]
        refine ⟨hm, by simp, ?_⟩
        have hnotin := (containsKey_eq_false_iff m _).mp (Bool.eq_false_iff.mpr hc)
        intro x hx hx2
        rw [List.map_singleton, List.mem_singleton] at hx2
        subst hx2
        exact hnotin hx
  · rw [loadLine_of_length_ne m line hlen] at h
    obtain rfl : m = m2 := Except.ok.inj h
    exact hm

/-- Folding lines preserves distinctness of the keys. -/
theorem loadLines_nodup : ∀ (ls : List String) (m m2 : AirportMap),
    loadLines m ls = Except.ok m2 → (m.map Prod.fst).Nodup →
    (m2.map Prod.fst).Nodup := by
  intro ls
  induction ls with
  | nil =>
    intro m m2 h hm
    obtain rfl : m = m2 := Except.ok.inj h
    exact hm
  | cons l ls ih =>
    intro m m2 h hm
    simp only [loadLines] at h
    cases hl : loadLine m l with
    | ok mid =>
      rw [hl] at h
      exact ih mid m2 h (loadLine_nodup m mid l hl hm)
    | error e =>
      rw [hl] at h
      exact absurd h (by simp)

/-- C4 (amended): whenever the loader does return a mapping, its keys are
pairwise distinct, so each ICAO identifier maps to exactly one record; but
duplicate well-formed lines are not collapsed: a repeated identifier makes
the loader fail with an uncaught TypeError instead of returning at all. -/
theorem read_airport_data_unique_keys :
    (∀ lines m, read_airport_data lines = some (Except.ok m) →
      (m.map Prod.fst).Nodup) ∧
    (∀ (m : AirportMap) (line : String) (rest : List String)
        (icao name lat lon dc dv nc nv ac av : String),
      splitFields line = [icao, name, lat, lon, dc, dv, nc, nv, ac, av] →
      (pyFloat lat).isSome = true → (pyFloat lon).isSome = true →
      containsKey m icao = true →
      loadLines m (line :: rest) = Except.error PyErr.typeError) := by
  constructor
  · intro lines m h
    unfold read_airport_data at h
    cases hs : skipHeader lines with
    | none =>
      rw [hs] at h
      exact absurd h (by simp)
    | some rest =>
      rw [hs] at h
      simp only [Option.map_some', Option.some.injEq] at h
      exact loadLines_nodup rest [] m h (by simp)
  · intro m line rest icao name lat lon dc dv nc nv ac av hs hlat hlon hc
    obtain ⟨vlat, hvlat⟩ := Option.isSome_iff_exists.mp hlat
    obtain ⟨vlon, hvlon⟩ := Option.isSome_iff_exists.mp hlon
    have h1 := loadLine_of_split m line icao name lat lon dc dv nc nv ac av hs
    rw [hvlat, hvlon] at h1
    rw [if_pos hc] at h1
    simp [loadLines, h1]

/-- C4 witness: the singleton EBCV mapping has distinct keys, and feeding
the EBCV line again on top of it raises the TypeError. -/
theorem read_airport_data_unique_keys_witness :
    (([("EBCV", ebcvRecord)] : AirportMap).map Prod.fst).Nodup ∧
    loadLines [("EBCV", ebcvRecord)] [ebcvLine] = Except.error PyErr.typeError := by
  constructor
  · exact read_airport_data_unique_keys.1 exampleInput [("EBCV", ebcvRecord)] rfl
  · exact read_airport_data_unique_keys.2 [("EBCV", ebcvRecord)] ebcvLine []
      "EBCV" "Chievres" "50.583333" "3.833333" "200" "400" "600" "2000" "600" "2000"
      (by decide) (by decide) (by decide) (by decide)

/-- Symmetry of the `acos` argument under swapping the two points. -/
theorem acosArgument_symm (lat1 lon1 lat2 lon2 : Real) :
    acosArgument lat1 lon1 lat2 lon2 = acosArgument lat2 lon2 lat1 lon1 := by
  unfold acosArgument
  rw [show lon2 * Real.pi / 180 - lon1 * Real.pi / 180 =
      -(lon1 * Real.pi / 180 - lon2 * Real.pi / 180) by ring, Real.cos_neg]
  ring

/-- For two identical points the `acos` argument is exactly 1. -/
theorem acosArgument_self (lat lon : Real) : acosArgument lat lon lat lon = 1 := by
  unfold acosArgument
  rw [sub_self, Real.cos_zero, mul_one]
  have h := Real.sin_sq_add_cos_sq (lat * Real.pi / 180)
  nlinarith [h]

/-- The `acos` argument always lies between -1 and 1 in exact arithmetic. -/
theorem acosArgument_bounds (lat1 lon1 lat2 lon2 : Real) :
    -1 ≤ acosArgument lat1 lon1 lat2 lon2 ∧ acosArgument lat1 lon1 lat2 lon2 ≤ 1 := by
  unfold acosArgument
  set a := lat1 * Real.pi / 180
  set b := lat2 * Real.pi / 180
  set t := lon1 * Real.pi / 180 - lon2 * Real.pi / 180
  have h1 := Real.sin_sq_add_cos_sq a
  have h2 := Real.sin_sq_add_cos_sq b
  have hct1 := Real.cos_le_one t
  have hct2 := Real.neg_one_le_cos t
  have hub1 : Real.sin a * Real.sin b + Real.cos a * Real.cos b ≤ 1 := by
    nlinarith [sq_nonneg (Real.sin a - Real.sin b), sq_nonneg (Real.cos a - Real.cos b)]
  have hub2 : Real.sin a * Real.sin b - Real.cos a * Real.cos b ≤ 1 := by
    nlinarith [sq_nonneg (Real.sin a - Real.sin b), sq_nonneg (Real.cos a + Real.cos b)]
  have hlb1 : -1 ≤ Real.sin a * Real.sin b + Real.cos a * Real.cos b := by
    nlinarith [sq_nonneg (Real.sin a + Real.sin b), sq_nonneg (Real.cos a + Real.cos b)]
  have hlb2 : -1 ≤ Real.sin a * Real.sin b - Real.cos a * Real.cos b := by
    nlinarith [sq_nonneg (Real.sin a + Real.sin b), sq_nonneg (Real.cos a - Real.cos b)]
  constructor
  · nlinarith [hub1, hub2, hlb1, hlb2, hct1, hct2]
  · nlinarith [hub1, hub2, hlb1, hlb2, hct1, hct2]

/-- C5: the distance computation is symmetric in its two coordinate pairs,
and the distance from any point to itself is exactly 0 (in the exact-real
idealization of the floating-point arithmetic). -/
theorem compute_distance_symm_and_self :
    (∀ lat1 lon1 lat2 lon2 : Real,
      compute_distance_latlon lat1 lon1 lat2 lon2 =
        compute_distance_latlon lat2 lon2 lat1 lon1) ∧
    (∀ lat lon : Real, compute_distance_latlon lat lon lat lon = 0) := by
  constructor
  · intro lat1 lon1 lat2 lon2
    unfold compute_distance_latlon
    rw [acosArgument_symm]
  · intro lat lon
    unfold compute_distance_latlon
    rw [acosArgument_self, Real.arccos_one]
    ring

/-- C6: the distance computation passes its `acos` argument unclamped; for
two identical points the exact value of that argument is exactly 1, the
upper boundary of the `acos` domain, and in exact arithmetic it always
lies in [-1, 1] — so the absence of a clamp leaves no margin for upward
floating-point rounding at identical points. -/
theorem acos_argument_unclamped_boundary :
    (∀ lat lon : Real, acosArgument lat lon lat lon = 1 ∧
      compute_distance_latlon lat lon lat lon =
        Real.arccos (acosArgument lat lon lat lon) * 6371 * 0.5399568) ∧
    (∀ lat1 lon1 lat2 lon2 : Real,
      -1 ≤ acosArgument lat1 lon1 lat2 lon2 ∧ acosArgument lat1 lon1 lat2 lon2 ≤ 1) := by
  constructor
  · intro lat lon
    exact ⟨acosArgument_self lat lon, rfl⟩
  · intro lat1 lon1 lat2 lon2
    exact acosArgument_bounds lat1 lon1 lat2 lon2

/-- A slice that ends within the first string is unaffected by appending. -/
theorem pySlice_append (s t : String) (a b : Nat) (hb : b ≤ s.length) :
    pySlice (s ++ t) a b = pySlice s a b := by
  unfold pySlice
  have hdata : (s ++ t).data = s.data ++ t.data := rfl
  rw [hdata, List.drop_append_eq_append_drop, List.take_append_eq_append_take]
  have hlen : (s.data.drop a).length = s.data.length - a := List.length_drop a s.data
  have hzero : b - a - (s.data.drop a).length = 0 := by
    rw [hlen]
    have : s.data.length = s.length := rfl
    omega
  rw [hzero, List.take_zero, List.append_nil]

/-- C7: for every string whose first 16 characters carry digits at offsets
0-3, 5-6, 8-9, 11-12, 14-15, `get_datetime` reads exactly those integer
fields as year, month, day, hour and minute, and any characters beyond
offset 16 are ignored. -/
theorem get_datetime_fixed_offsets :
    (∀ (line : String) (y mo d h mi : Nat),
      pyInt (pySlice line 0 4) = some y →
      pyInt (pySlice line 5 7) = some mo →
      pyInt (pySlice line 8 10) = some d →
      pyInt (pySlice line 11 13) = some h →
      pyInt (pySlice line 14 16) = some mi →
      get_datetime line = mkDatetime y mo d h mi) ∧
    (∀ s t : String, 16 ≤ s.length → get_datetime (s ++ t) = get_datetime s) := by
  constructor
  · intro line y mo d h mi h1 h2 h3 h4 h5
    simp [get_datetime, h1, h2, h3, h4, h5]
  · intro s t hlen
    unfold get_datetime
    rw [pySlice_append s t 0 4 (by omega), pySlice_append s t 5 7 (by omega),
      pySlice_append s t 8 10 (by omega), pySlice_append s t 11 13 (by omega),
      pySlice_append s t 14 16 (by omega)]

/-- C7 witness: the spec's example, with a suffix beyond offset 16, parses
to the expected components, and appending the suffix does not change the
result. -/
theorem get_datetime_fixed_offsets_witness :
    get_datetime "2012/11/27 10:54 rest" = some ⟨2012, 11, 27, 10, 54⟩ ∧
    get_datetime ("2012/11/27 10:54" ++ " rest") = get_datetime "2012/11/27 10:54" := by
  constructor
  · rw [get_datetime_fixed_offsets.1 "2012/11/27 10:54 rest" 2012 11 27 10 54
      (by decide) (by decide) (by decide) (by decide) (by decide)]
    decide
  · exact get_datetime_fixed_offsets.2 "2012/11/27 10:54" " rest" (by decide)

/-- C9: `search_string` never returns a validity-interval token: every call
on a nonempty line raises `TypeError` (the last loop character, a string,
is added to an integer), and the empty line raises `NameError` (the loop
variable is never bound). -/
theorem search_string_always_raises (s : String) :
    (s ≠ "" → search_string s = Except.error PyErr.typeError) ∧
    (s = "" → search_string s = Except.error PyErr.nameError) := by
  constructor
  · intro h
    unfold search_string
    cases hg : s.data.getLast? with
    | none =>
      exfalso
      apply h
      have hnil : s.data = [] := List.getLast?_eq_none_iff.mp hg
      cases s with
      | mk data =>
        simp at hnil
        subst hnil
        rfl
    | some c => rfl
  · intro h
    subst h
    rfl

/-- C9 witness: the docstring's own example line raises `TypeError` rather
than returning "0519/0607". -/
theorem search_string_always_raises_witness :
    search_string "TAF TAF EBCV 051615Z 0519/0607 30005KT 8000 BKN015 \n" =
      Except.error PyErr.typeError :=
  (search_string_always_raises "TAF TAF EBCV 051615Z 0519/0607 30005KT 8000 BKN015 \n").1
    (by decide)
